import Mathlib

/-!
Verification of `ifm3d-ros2` (file `src/include/ifm3d_ros2/camera_node.hpp`).

The repository's only in-tree logic is the legacy schema-mask translator in
namespace `ifm3d_legacy`: four 16-bit mask constants, a table mapping each
mask bit to an `ifm3d::buffer_id`, and `buffer_list_from_schema_mask`, which
walks the table and collects the buffer ids whose bit is set in the mask.
The `CameraNode` lifecycle callbacks and service handlers are declared in the
header but their bodies are not part of the sources; where a claim depends on
them they are modelled from the specification (marked as such).
-/

namespace Ifm3dRos2

/-- Embedding of the `ifm3d::buffer_id` values referenced by the header,
plus one further value of the vendor enum (`CONFIDENCE_IMAGE`) that has no
entry in the legacy table, so that "ids with no table entry" is expressible. -/
inductive Buffer_id where
  | RADIAL_DISTANCE_IMAGE
  | NORM_AMPLITUDE_IMAGE
  | AMPLITUDE_IMAGE
  | XYZ
  | CONFIDENCE_IMAGE
  deriving DecidableEq, Repr

open Buffer_id

/-- `const std::uint16_t IMG_RDIS = (1 << 0);` -/
def IMG_RDIS : Nat := 1 <<< 0

/-- `const std::uint16_t IMG_AMP = (1 << 1);` -/
def IMG_AMP : Nat := 1 <<< 1

/-- `const std::uint16_t IMG_RAMP = (1 << 2);` -/
def IMG_RAMP : Nat := 1 <<< 2

/-- `const std::uint16_t IMG_CART = (1 << 3);` -/
def IMG_CART : Nat := 1 <<< 3

/-- Embedding of `ifm3d_legacy::schema_mask_buffer_id_map`.
`std::map` iterates in ascending key order; the four keys 1, 2, 4, 8 are
already inserted in ascending order, so the iteration sequence is exactly
the written-down sequence. -/
def schema_mask_buffer_id_map : List (Nat × Buffer_id) :=
  [(IMG_RDIS, RADIAL_DISTANCE_IMAGE),
   (IMG_AMP, NORM_AMPLITUDE_IMAGE),
   (IMG_RAMP, AMPLITUDE_IMAGE),
   (IMG_CART, XYZ)]

/-- Embedding of `ifm3d_legacy::buffer_list_from_schema_mask`: a fold over
the table mirroring the `for` loop; `emplace_back` is append at the end,
and the guard is `(mask & schema_mask) == schema_mask`. -/
def buffer_list_from_schema_mask (mask : Nat) : List Buffer_id :=
  schema_mask_buffer_id_map.foldl
    (fun buffer_list p =>
      if mask &&& p.1 == p.1 then buffer_list ++ [p.2] else buffer_list)
    []

/-- The translator's value as a function of the four relevant mask bits
(used to split case analyses; each argument is the guard Boolean that the
loop evaluates for the corresponding table entry). -/
def list_of_bits (b1 b2 b4 b8 : Bool) : List Buffer_id :=
  (if b1 then [RADIAL_DISTANCE_IMAGE] else [])
    ++ (if b2 then [NORM_AMPLITUDE_IMAGE] else [])
    ++ (if b4 then [AMPLITUDE_IMAGE] else [])
    ++ (if b8 then [XYZ] else [])

theorem buffer_list_eq_list_of_bits (mask : Nat) :
    buffer_list_from_schema_mask mask =
      list_of_bits (mask &&& 1 == 1) (mask &&& 2 == 2)
        (mask &&& 4 == 4) (mask &&& 8 == 8) := by
  simp only [buffer_list_from_schema_mask, schema_mask_buffer_id_map,
    IMG_RDIS, IMG_AMP, IMG_RAMP, IMG_CART, List.foldl, list_of_bits]
  cases h1 : (mask &&& 1 == 1) <;> cases h2 : (mask &&& 2 == 2) <;>
    cases h4 : (mask &&& 4 == 4) <;> cases h8 : (mask &&& 8 == 8) <;> simp

/-- The spec's own description of the translator, stated from its words:
the fixed table sequence `RADIAL_DISTANCE_IMAGE, NORM_AMPLITUDE_IMAGE,
AMPLITUDE_IMAGE, XYZ` with bit indices 0..3, filtered to the entries whose
mask bit is set, in that fixed table order. -/
def translate_spec (mask : Nat) : List Buffer_id :=
  ([(0, RADIAL_DISTANCE_IMAGE), (1, NORM_AMPLITUDE_IMAGE),
    (2, AMPLITUDE_IMAGE), (3, XYZ)].filter
      (fun p : Nat × Buffer_id => mask.testBit p.1)).map Prod.snd

theorem and_single_bit (m i : Nat) :
    (m &&& (1 <<< i) == 1 <<< i) = m.testBit i := by
  have h1 : (1 : Nat) <<< i = 2 ^ i := by
    rw [Nat.shiftLeft_eq, Nat.one_mul]
  rw [h1, Nat.and_two_pow]
  cases h : m.testBit i with
  | true => simp
  | false =>
    simp only [Bool.toNat_false, Nat.zero_mul]
    exact beq_eq_false_iff_ne.mpr (Ne.symm (Nat.pos_iff_ne_zero.mp (Nat.two_pow_pos i)))

theorem buffer_list_eq_translate_spec (mask : Nat) :
    buffer_list_from_schema_mask mask = translate_spec mask := by
  rw [buffer_list_eq_list_of_bits]
  simp only [translate_spec, List.filter, List.map]
  rw [show (mask &&& 1 == 1) = mask.testBit 0 from and_single_bit mask 0,
    show (mask &&& 2 == 2) = mask.testBit 1 from and_single_bit mask 1,
    show (mask &&& 4 == 4) = mask.testBit 2 from and_single_bit mask 2,
    show (mask &&& 8 == 8) = mask.testBit 3 from and_single_bit mask 3]
  cases h1 : mask.testBit 0 <;> cases h2 : mask.testBit 1 <;>
    cases h4 : mask.testBit 2 <;> cases h8 : mask.testBit 3 <;>
      simp [list_of_bits]

/-- C2: for every schema mask, the translator's output equals the fixed
table sequence `RADIAL_DISTANCE_IMAGE, NORM_AMPLITUDE_IMAGE,
AMPLITUDE_IMAGE, XYZ` filtered to the entries whose mask bit is set, in
that fixed table order, independent of which bits are set. -/
theorem translator_matches_table_filter (mask : Nat) :
    buffer_list_from_schema_mask mask = translate_spec mask :=
  buffer_list_eq_translate_spec mask

theorem buffer_list_eq_filter_map (mask : Nat) :
    buffer_list_from_schema_mask mask =
      (schema_mask_buffer_id_map.filter
        (fun p => mask &&& p.1 == p.1)).map Prod.snd := by
  simp only [buffer_list_from_schema_mask, schema_mask_buffer_id_map,
    List.foldl, List.filter, List.map]
  cases h1 : (mask &&& IMG_RDIS == IMG_RDIS) <;>
    cases h2 : (mask &&& IMG_AMP == IMG_AMP) <;>
      cases h4 : (mask &&& IMG_RAMP == IMG_RAMP) <;>
        cases h8 : (mask &&& IMG_CART == IMG_CART) <;> simp

/-- C1: for every mask, the translator's output contains a buffer id iff
the table pairs that id with a mask bit that is set in the mask; a buffer
id with no table entry (such as `CONFIDENCE_IMAGE`) never appears. -/
theorem mem_buffer_list_iff (mask : Nat) (b : Buffer_id) :
    b ∈ buffer_list_from_schema_mask mask ↔
      ∃ k, (k, b) ∈ schema_mask_buffer_id_map ∧ mask &&& k = k := by
  rw [buffer_list_eq_filter_map]
  simp only [List.mem_map, List.mem_filter, beq_iff_eq]
  constructor
  · rintro ⟨⟨k, b'⟩, ⟨hk, hmask⟩, rfl⟩
    exact ⟨k, hk, hmask⟩
  · rintro ⟨k, hk, hmask⟩
    exact ⟨(k, b), ⟨hk, hmask⟩, rfl⟩

/-- C3: bits with no table entry are silently ignored: masking the input
down to the four known bits leaves the translator's output unchanged. -/
theorem unknown_bits_ignored (mask : Nat) :
    buffer_list_from_schema_mask mask =
      buffer_list_from_schema_mask
        (mask &&& (IMG_RDIS ||| IMG_AMP ||| IMG_RAMP ||| IMG_CART)) := by
  rw [buffer_list_eq_list_of_bits, buffer_list_eq_list_of_bits]
  rw [show IMG_RDIS ||| IMG_AMP ||| IMG_RAMP ||| IMG_CART = 15 from by decide]
  have h : ∀ k : Nat, 15 &&& k = k → (mask &&& 15) &&& k = mask &&& k := by
    intro k hk
    rw [Nat.land_assoc, hk]
  rw [h 1 (by decide), h 2 (by decide), h 4 (by decide), h 8 (by decide)]

/-- C4: `buffer_list_from_schema_mask 0 = []`. -/
theorem buffer_list_from_schema_mask_zero : buffer_list_from_schema_mask 0 = [] := by
  decide

/-- C5: the mask `0b1001` yields exactly `[RADIAL_DISTANCE_IMAGE, XYZ]`,
in that order. -/
theorem buffer_list_from_schema_mask_nine :
    buffer_list_from_schema_mask 9 = [RADIAL_DISTANCE_IMAGE, XYZ] := by
  decide

/-- C10: the amplitude bits are crossed relative to the buffer-id names:
bit `IMG_AMP` (`1 <<< 1`) selects `NORM_AMPLITUDE_IMAGE` and bit `IMG_RAMP`
(`1 <<< 2`) selects `AMPLITUDE_IMAGE`. -/
theorem amplitude_bits_crossed :
    buffer_list_from_schema_mask (1 <<< 1) = [NORM_AMPLITUDE_IMAGE] ∧
      buffer_list_from_schema_mask (1 <<< 2) = [AMPLITUDE_IMAGE] := by
  decide

/-- The global mutable state visible to `buffer_list_from_schema_mask`:
the (non-`const`) namespace-scope `schema_mask_buffer_id_map`. -/
structure LegacyGlobals where
  map_entries : List (Nat × Buffer_id)
  deriving DecidableEq, Repr

/-- The initial global state: the map's initializer. -/
def init_globals : LegacyGlobals := ⟨schema_mask_buffer_id_map⟩

/-- `buffer_list_from_schema_mask` as a state transformer over the globals
it can reach. The loop body only reads the map (structured binding over the
entries) and appends to the local `buffer_list`; no write to any global
occurs, so the final state is the initial one. -/
def buffer_list_from_schema_mask_run (g : LegacyGlobals) (mask : Nat) :
    List Buffer_id × LegacyGlobals :=
  (g.map_entries.foldl
    (fun buffer_list p =>
      if mask &&& p.1 == p.1 then buffer_list ++ [p.2] else buffer_list)
    [], g)

/-- C6: the translator is deterministic and side-effect-free: from any
global state, a call leaves the globals unchanged, two consecutive calls
with the same mask return equal lists, and from the initial globals the
result is the pure `buffer_list_from_schema_mask`. -/
theorem translator_deterministic (g : LegacyGlobals) (mask : Nat) :
    (buffer_list_from_schema_mask_run g mask).2 = g ∧
      (buffer_list_from_schema_mask_run
          (buffer_list_from_schema_mask_run g mask).2 mask).1 =
        (buffer_list_from_schema_mask_run g mask).1 ∧
      (buffer_list_from_schema_mask_run init_globals mask).1 =
        buffer_list_from_schema_mask mask :=
  ⟨rfl, rfl, rfl⟩

theorem and_le_trans {m1 m2 k : Nat} (h : m1 &&& m2 = m1)
    (hk : m1 &&& k = k) : m2 &&& k = k := by
  calc m2 &&& k = m2 &&& (m1 &&& k) := by rw [hk]
    _ = (m2 &&& m1) &&& k := by rw [Nat.land_assoc]
    _ = (m1 &&& m2) &&& k := by rw [Nat.land_comm m2 m1]
    _ = m1 &&& k := by rw [h]
    _ = k := hk

theorem if_single_sublist {b c : Bool} (x : List Buffer_id)
    (h : b = true → c = true) :
    List.Sublist (if b then x else []) (if c then x else []) := by
  cases b with
  | true => rw [h rfl]
  | false => exact List.nil_sublist _

/-- C9: the translator is monotone: if every bit set in `m1` is also set
in `m2` (i.e. `m1 &&& m2 = m1`), the list for `m1` is a sublist (order
preserved, nothing removed) of the list for `m2`. -/
theorem buffer_list_monotone (m1 m2 : Nat) (h : m1 &&& m2 = m1) :
    List.Sublist (buffer_list_from_schema_mask m1)
      (buffer_list_from_schema_mask m2) := by
  rw [buffer_list_eq_list_of_bits, buffer_list_eq_list_of_bits]
  simp only [list_of_bits]
  have hb : ∀ k : Nat, (m1 &&& k == k) = true → (m2 &&& k == k) = true := by
    intro k hk
    exact beq_iff_eq.mpr (and_le_trans h (beq_iff_eq.mp hk))
  exact (((if_single_sublist _ (hb 1)).append
    (if_single_sublist _ (hb 2))).append
      (if_single_sublist _ (hb 4))).append (if_single_sublist _ (hb 8))

/-- Witness for C9 at `m1 = 1`, `m2 = 9`. -/
theorem buffer_list_monotone_witness :
    1 &&& 9 = 1 ∧
      List.Sublist (buffer_list_from_schema_mask 1)
        (buffer_list_from_schema_mask 9) :=
  ⟨by decide, buffer_list_monotone 1 9 (by decide)⟩

/-- The controller states of the lifecycle node (spec section 3,
`ControllerState`). -/
inductive ControllerState where
  | Unconfigured
  | Inactive
  | Active
  | ErrorProcessing
  | Finalized
  deriving DecidableEq, Repr

/-- The lifecycle controller's observable resource state: its controller
state, the number of open device sessions (camera + framegrabber owned by
`cam_` / `fg_`), and whether the publish-loop worker runs. -/
structure Controller where
  state : ControllerState
  open_sessions : Nat
  loop_running : Bool
  deriving DecidableEq, Repr

/-- Modelled from the spec: `CameraNode::on_configure` (its body is not in
the sources). Per the transition table, from Unconfigured (or
ErrorProcessing on recovery), parameters are parsed, the schema translated
and the device session opened; on success the controller is Inactive with
one more open session, on failure it goes to ErrorProcessing with all
session resources released (nothing left open). -/
def on_configure (open_ok : Bool) (c : Controller) : Controller :=
  match c.state with
  | ControllerState.Unconfigured =>
      if open_ok then
        ⟨ControllerState.Inactive, c.open_sessions + 1, false⟩
      else
        ⟨ControllerState.ErrorProcessing, c.open_sessions, false⟩
  | ControllerState.ErrorProcessing =>
      if open_ok then
        ⟨ControllerState.Inactive, c.open_sessions + 1, false⟩
      else
        ⟨ControllerState.ErrorProcessing, c.open_sessions, false⟩
  | _ => c

/-- Modelled from the spec: `CameraNode::on_activate` (body not in the
sources). From Inactive, the publishers are activated and the publish-loop
thread started; the session is untouched. -/
def on_activate (c : Controller) : Controller :=
  match c.state with
  | ControllerState.Inactive =>
      ⟨ControllerState.Active, c.open_sessions, true⟩
  | _ => c

/-- Modelled from the spec: `CameraNode::on_deactivate` (body not in the
sources). From Active, the publish loop is stopped and joined and the
publishers deactivated; the session is untouched. -/
def on_deactivate (c : Controller) : Controller :=
  match c.state with
  | ControllerState.Active =>
      ⟨ControllerState.Inactive, c.open_sessions, false⟩
  | _ => c

/-- Modelled from the spec: `CameraNode::on_cleanup` (body not in the
sources). From Inactive, the ifm3d core data structures (camera,
framegrabber) are destroyed, closing the open session. -/
def on_cleanup (c : Controller) : Controller :=
  match c.state with
  | ControllerState.Inactive =>
      ⟨ControllerState.Unconfigured, c.open_sessions - 1, false⟩
  | _ => c

/-- C7: starting Unconfigured with no open session and no running loop,
configure (succeeding), activate, deactivate, cleanup returns the
controller to Unconfigured with as many open sessions as at the start
(zero) and no running loop: no session resource is leaked. -/
theorem lifecycle_roundtrip (c : Controller)
    (hs : c.state = ControllerState.Unconfigured)
    (hn : c.open_sessions = 0) :
    (on_cleanup (on_deactivate (on_activate (on_configure true c)))).state =
        ControllerState.Unconfigured ∧
      (on_cleanup (on_deactivate (on_activate
          (on_configure true c)))).open_sessions = c.open_sessions ∧
      (on_cleanup (on_deactivate (on_activate
          (on_configure true c)))).loop_running = false := by
  obtain ⟨s, n, l⟩ := c
  simp only at hs hn
  subst hs
  subst hn
  simp [on_configure, on_activate, on_deactivate, on_cleanup]

/-- Witness for C7 at the initial controller. -/
theorem lifecycle_roundtrip_witness :
    (Controller.mk ControllerState.Unconfigured 0 false).state =
        ControllerState.Unconfigured ∧
      (Controller.mk ControllerState.Unconfigured 0 false).open_sessions = 0 ∧
      ((on_cleanup (on_deactivate (on_activate (on_configure true
          (Controller.mk ControllerState.Unconfigured 0 false))))).state =
          ControllerState.Unconfigured ∧
        (on_cleanup (on_deactivate (on_activate (on_configure true
            (Controller.mk ControllerState.Unconfigured 0
              false))))).open_sessions =
          (Controller.mk ControllerState.Unconfigured 0 false).open_sessions ∧
        (on_cleanup (on_deactivate (on_activate (on_configure true
            (Controller.mk ControllerState.Unconfigured 0
              false))))).loop_running = false) :=
  ⟨rfl, rfl,
    lifecycle_roundtrip (Controller.mk ControllerState.Unconfigured 0 false)
      rfl rfl⟩

/-- Response of the `Dump` service: a success flag and the device's
configuration payload. -/
structure DumpResponse_m where
  status : Bool
  config_json : String
  deriving DecidableEq, Repr

/-- Modelled from the spec: `CameraNode::Dump` (body not in the sources).
The handler is callable only while a session exists; called with no open
session (`cam_` handle absent) it populates the response with an explicit
failure indicator and changes no controller state; with a session it
returns the device's configuration blob. It is a total function: it
neither blocks nor throws. -/
def Dump (c : Controller) (cam : Option String) :
    DumpResponse_m × Controller :=
  match cam with
  | none => (⟨false, ""⟩, c)
  | some j => (⟨true, j⟩, c)

/-- C8: calling `Dump` with no open session returns a response whose
failure indicator is set and leaves the controller state unchanged (and,
the model being a total function, it neither blocks nor throws). -/
theorem dump_no_session (c : Controller) :
    (Dump c none).1.status = false ∧ (Dump c none).2 = c :=
  ⟨rfl, rfl⟩

end Ifm3dRos2
